import Mathlib

/-!
Verification of the distributed bootstrap and control subsystem of
`pysph/solver/application.py` (class `Application`).

The embedding translates the relevant parts of the source:
  - `Application.__init__` (MPI rank/size setup, lines 59-66),
  - `Application._setup_logging` (lines 299-328),
  - `Application._create_particles` (lines 330-460),
  - the output-file-name logic of `Application.setup` (lines 546-564),
  - the interface-attachment logic of `Application.setup` (lines 603-641).

Floating point values (`t`, `dt`, scale factors) are modelled as rationals;
Python strings are modelled as `String` or `List Char`; Python exceptions
become `Except` / `Option` results.  Side effects on the external partition
service (`ZoltanParallelManagerGeometric`) and on the checkpoint loader are
captured in an explicit event trace.
-/

set_option autoImplicit false

namespace PySPH

/-- An entity ("particle array"): a named collection of elements with an
`is_static` flag.  Per-element numeric fields are irrelevant to the claims
and are summarised by the element count. -/
structure ParticleArray where
  name : String
  is_static : Bool
  numElems : Nat
deriving DecidableEq, Repr

/-- The data held in a restart checkpoint file, as read by `load` in
`_create_particles` (lines 349-363): a mapping name to array (modelled as an
association list in iteration order) and the solver data `t`, `dt`, `count`. -/
structure CheckpointData where
  arrays : List (String × ParticleArray)
  solver_t : ℚ
  solver_dt : ℚ
  solver_count : Nat
deriving DecidableEq, Repr

/-- Modelled from the spec: `ZoltanParallelManagerGeometric` lives in
`pysph/parallel/parallel_manager.py`, which is not under `src/`.  Only the
constructor arguments passed at lines 417-425 / 437-445 and the
`initial_update` flag assigned at lines 433 and 451 are modelled. -/
structure ParallelManager where
  dim : Nat
  particles : List ParticleArray
  lb_method : String
  obj_weight_dim : String
  ghost_layers : ℚ
  update_cell_sizes : Bool
  radius_scale : ℚ
  initial_update : Bool
deriving DecidableEq, Repr

/-- Modelled from the spec: the `ZoltanParallelManagerGeometric` constructor
(not under `src/`).  Per spec section 4.3 steps 4-5, a partition group is
constructed not-yet-initialized and is marked initialized only by an explicit
clearing of its initial-update flag after its initial balance (the source
performs that clearing itself, at lines 433 and 451). -/
def ParallelManager.construct (dim : Nat) (particles : List ParticleArray)
    (lb_method obj_weight_dim : String) (ghost_layers : ℚ)
    (update_cell_sizes : Bool) (radius_scale : ℚ) : ParallelManager :=
  { dim := dim, particles := particles, lb_method := lb_method,
    obj_weight_dim := obj_weight_dim, ghost_layers := ghost_layers,
    update_cell_sizes := update_cell_sizes, radius_scale := radius_scale,
    initial_update := true }

/-- The mutable solver state touched by `_create_particles` and `setup`:
`solver.t`, `solver.dt`, `solver.count` (line 367), the kernel radius scale
(line 415), the dimension, and the parallel-manager handles set at
lines 457-458. -/
structure Solver where
  t : ℚ
  dt : ℚ
  count : Nat
  dim : Nat
  kernel_radius_scale : ℚ
  pm : Option ParallelManager
  pm_static : Option ParallelManager
deriving DecidableEq, Repr

/-- The option values produced by `_setup_optparse` that the modelled code
reads.  Fields keep the source `dest` names. -/
structure Options where
  restart_file : Option String
  rescale_dt : ℚ
  with_zoltan : Bool
  zoltan_lb_method : String
  zoltan_weights : Bool
  ghost_layers : ℚ
  zoltan_debug_level : String
  update_cell_sizes : Bool
  parallel_scale_factor : ℚ
  cmd_line : Bool
  xml_rpc : Option String
  multiproc : Option String
  output : String
  logfile : Option String
deriving DecidableEq, Repr

/-- The option defaults declared in `_setup_optparse` (lines 79-276).
`fname` is the application name used for the default output name. -/
def defaultOptions (fname : String) : Options :=
  { restart_file := none
    rescale_dt := 1
    with_zoltan := true
    zoltan_lb_method := "RCB"
    zoltan_weights := true
    ghost_layers := 3
    zoltan_debug_level := "0"
    update_cell_sizes := false
    parallel_scale_factor := 2
    cmd_line := false
    xml_rpc := none
    multiproc := some "pysph@0.0.0.0:8800+"
    output := fname
    logfile := none }

/-- Observable external effects of `_create_particles`: checkpoint loading,
factory invocation, and calls into the partition service. -/
inductive Event
  | loadCheckpoint (path : String)
  | factoryCall (empty : Bool)
  | pmConstruct (staticGroup : Bool)
  | pmSetParam (staticGroup : Bool) (key value : String)
  | pmUpdate (staticGroup : Bool)
  | barrier
deriving DecidableEq, Repr

/-- Whether an event is a call into the partitioning service
(construction, parameter setting, balancing, or the post-balance barrier). -/
def Event.isPartitionCall : Event → Bool
  | Event.pmConstruct _ => true
  | Event.pmSetParam _ _ _ => true
  | Event.pmUpdate _ => true
  | Event.barrier => true
  | _ => false

/-- Whether an event acquires initial data (a checkpoint load or a factory
call). -/
def Event.isDataAcquisition : Event → Bool
  | Event.loadCheckpoint _ => true
  | Event.factoryCall _ => true
  | _ => false

/-- The exceptions `_create_particles` can raise (lines 393 and 396). -/
inductive AppError
  | runtimeError (msg : String)
  | valueError (msg : String)
deriving DecidableEq, Repr

/-- The state produced by a successful `_create_particles` call:
`self.particles`, `self.particles_static`, `self.particles_dynamic`,
`self.pm`, `self.pm_static`, the solver after its mutations, and the trace
of external effects. -/
structure CreateResult where
  particles : List ParticleArray
  particles_static : List ParticleArray
  particles_dynamic : List ParticleArray
  pm : Option ParallelManager
  pm_static : Option ParallelManager
  solver : Solver
  events : List Event
deriving DecidableEq, Repr

/-- One iteration of the classification loop at lines 379-383: append the
array to the static or the dynamic list according to its flag. -/
def classifyStep (acc : List ParticleArray × List ParticleArray)
    (pa : ParticleArray) : List ParticleArray × List ParticleArray :=
  if pa.is_static then (acc.1 ++ [pa], acc.2) else (acc.1, acc.2 ++ [pa])

/-- The classification loop at lines 376-383: split `particles` into
`(particles_static, particles_dynamic)` by each array's `is_static` flag. -/
def classify (particles : List ParticleArray) :
    List ParticleArray × List ParticleArray :=
  particles.foldl classifyStep ([], [])

/-- Lines 346-374 of `_create_particles`: rank 0 either loads the restart
checkpoint (rescaling `dt` and setting `solver.t`, `solver.dt`,
`solver.count`) or calls the factory for full data; every other rank calls
the factory with `empty=True`.  Returns the particle list, the updated
solver, and the data-acquisition events. -/
def bootstrapStep (rank : Nat) (options : Options) (solver : Solver)
    (factory : Bool → List ParticleArray) (load : String → CheckpointData) :
    List ParticleArray × Solver × List Event :=
  if rank = 0 then
    match options.restart_file with
    | some rf =>
        let data := load rf
        let particles := data.arrays.map (fun a => a.2)
        let t := data.solver_t
        let dt := data.solver_dt * options.rescale_dt
        let count := data.solver_count
        (particles, { solver with t := t, dt := dt, count := count },
          [Event.loadCheckpoint rf])
    | none => (factory false, solver, [Event.factoryCall false])
  else
    (factory true, solver, [Event.factoryCall true])

/-- Lines 385-458 of `_create_particles`: when `num_procs > 1`, check Zoltan
availability, build and balance the dynamic partition group, clear its
initial-update flag, do the same for the static group when static arrays
exist (the source re-assigns `pm.initial_update` there, line 451), then
barrier; when `num_procs == 1` do nothing.  Finally the handles are set on
the solver (lines 457-458).  Returns `(pm, pm_static, solver, events)`. -/
def partitionStep (num_procs : Nat) (hasZoltan hasMPI : Bool)
    (options : Options) (solver : Solver)
    (particles_dynamic particles_static : List ParticleArray)
    (events : List Event) :
    Except AppError
      (Option ParallelManager × Option ParallelManager × Solver × List Event) :=
  if 1 < num_procs then
    if options.with_zoltan then
      if !(hasZoltan && hasMPI) then
        Except.error (AppError.runtimeError "Cannot run in parallel!")
      else
        let obj_weight_dim := if options.zoltan_weights then "1" else "0"
        let radius_scale :=
          options.parallel_scale_factor * solver.kernel_radius_scale
        let pm0 := ParallelManager.construct solver.dim particles_dynamic
          options.zoltan_lb_method obj_weight_dim options.ghost_layers
          options.update_cell_sizes radius_scale
        let ev1 := events ++ [Event.pmConstruct false,
          Event.pmSetParam false "DEBUG_LEVEL" options.zoltan_debug_level,
          Event.pmSetParam false "DEBUG_MEMORY" "0",
          Event.pmUpdate false]
        let pm1 : ParallelManager := { pm0 with initial_update := false }
        if 0 < particles_static.length then
          let pmS := ParallelManager.construct solver.dim particles_static
            options.zoltan_lb_method obj_weight_dim options.ghost_layers
            options.update_cell_sizes radius_scale
          let ev2 := ev1 ++ [Event.pmConstruct true,
            Event.pmSetParam true "DEBUG_LEVEL" options.zoltan_debug_level,
            Event.pmSetParam true "DEBUG_MEMORY" "0",
            Event.pmUpdate true]
          -- Line 451 of the source assigns `pm.initial_update = False` after
          -- `pm_static.update()`; it does not touch `pm_static.initial_update`.
          let pm2 : ParallelManager := { pm1 with initial_update := false }
          let ev3 := ev2 ++ [Event.barrier]
          Except.ok (some pm2, some pmS,
            { solver with pm := some pm2, pm_static := some pmS }, ev3)
        else
          let ev3 := ev1 ++ [Event.barrier]
          Except.ok (some pm1, none,
            { solver with pm := some pm1, pm_static := none }, ev3)
    else
      Except.error (AppError.valueError
        "Sorry. You are stuck with Zoltan for now; use with_zoltan for parallel runs")
  else
    Except.ok (none, none, { solver with pm := none, pm_static := none },
      events)

/-- `Application._create_particles` (lines 330-460): bootstrap the particle
list on this rank, classify into static/dynamic, run the partition phase,
and set the parallel-manager handles on the solver. -/
def createParticles (rank num_procs : Nat) (hasZoltan hasMPI : Bool)
    (options : Options) (solver : Solver)
    (factory : Bool → List ParticleArray) (load : String → CheckpointData) :
    Except AppError CreateResult :=
  let s1 := bootstrapStep rank options solver factory load
  let cls := classify s1.1
  match partitionStep num_procs hasZoltan hasMPI options s1.2.1 cls.2 cls.1
      s1.2.2 with
  | Except.error e => Except.error e
  | Except.ok pout =>
      Except.ok
        { particles := s1.1
          particles_static := cls.1
          particles_dynamic := cls.2
          pm := pout.1
          pm_static := pout.2.1
          solver := pout.2.2.1
          events := pout.2.2.2 }

/-- Python `str.find`: the index of the first occurrence of `c`, or `None`
where the source checks for `-1`. -/
def pyFind (c : Char) : List Char → Option Nat
  | [] => none
  | x :: xs => if x = c then some 0 else Option.map (fun i => i + 1) (pyFind c xs)

/-- The numeric value of a decimal digit character. -/
def digitVal (c : Char) : Nat := c.toNat - Char.toNat '0'

/-- The natural number denoted by a decimal digit string. -/
def digitsToNat (l : List Char) : Nat :=
  l.foldl (fun acc c => acc * 10 + digitVal c) 0

/-- Python `int()` restricted to unsigned decimal digit strings; `none`
mirrors the `ValueError` raised on anything else. -/
def pyInt (l : List Char) : Option Int :=
  if l = [] then none
  else if l.all Char.isDigit then some (Int.ofNat (digitsToNat l)) else none

/-- Lines 622-624: split off the authkey at the first `@`, defaulting to
`"pysph"`; the remainder is the `[host:]port[+]` part.  With no `@`,
`addr[idx+1:]` is `addr[0:]`, the whole string. -/
def splitAuth (s : List Char) : List Char × List Char :=
  match pyFind '@' s with
  | none => (String.toList "pysph", s)
  | some i => (s.take i, s.drop (i + 1))

/-- Lines 625-627: split off the host at the first `:`, defaulting to
`"0.0.0.0"`; the remainder is the `port[+]` part. -/
def splitHost (s : List Char) : List Char × List Char :=
  match pyFind ':' s with
  | none => (String.toList "0.0.0.0", s)
  | some i => (s.take i, s.drop (i + 1))

/-- Lines 628-633: a trailing `+` sets `try_next_port` and is stripped, then
the rest is parsed with `int()`.  `none` mirrors the `IndexError` on an
empty port and the `ValueError` on non-digits. -/
def parsePort (port0 : List Char) : Option (Int × Bool) :=
  match port0.getLast? with
  | none => none
  | some c =>
      let pr := if c = '+' then (true, port0.dropLast) else (false, port0)
      match pyInt pr.2 with
      | none => none
      | some p => some (p, pr.1)

/-- Lines 619-633 of `Application.setup`: parse a multiprocessing endpoint
address `[authkey@][host:]port[+]` into `(authkey, host, port,
try_next_port)`. -/
def parseMultiproc (s : List Char) :
    Option (List Char × List Char × Int × Bool) :=
  let a := splitAuth s
  let h := splitHost a.2
  match parsePort h.2 with
  | none => none
  | some pb => some (a.1, h.1, pb.1, pb.2)

/-- Lines 612-615 of `Application.setup`: parse an XML-RPC endpoint address
`[host:]port` into `(host, port)`. -/
def parseXmlRpc (s : List Char) : Option (List Char × Int) :=
  let a := match pyFind ':' s with
    | none => (String.toList "0.0.0.0", s)
    | some i => (s.take i, s.drop (i + 1))
  match pyInt a.2 with
  | none => none
  | some p => some (a.1, p)

/-- A solver interface registered with the command manager (lines 603-641):
the commandline, XML-RPC, or multiprocessing front end, with the parameters
the source passes to its constructor. -/
inductive SolverInterface
  | commandline
  | xmlrpc (host : List Char) (port : Int)
  | multiproc (authkey host : List Char) (port : Int) (tryNextPort : Bool)
deriving DecidableEq, Repr

/-- Python truthiness of an optional string option: `None` and `""` are
falsy (the source tests `if options.xml_rpc` and `if options.multiproc`). -/
def pyTruthy : Option String → Bool
  | none => false
  | some s => 0 < s.length

/-- Lines 603-641 of `Application.setup`: on rank 0, attach the commandline
interface when requested, then the XML-RPC interface when an address is
given, then the multiprocessing interface when its address option is truthy;
on other ranks attach nothing.  `none` mirrors an address-parse exception. -/
def addInterfaces (rank : Nat) (options : Options) :
    Option (List SolverInterface) :=
  if rank = 0 then
    let l1 : List SolverInterface :=
      if options.cmd_line then [SolverInterface.commandline] else []
    let l2 : Option (List SolverInterface) :=
      if pyTruthy options.xml_rpc then
        match parseXmlRpc (String.toList (options.xml_rpc.getD "")) with
        | none => none
        | some hp => some [SolverInterface.xmlrpc hp.1 hp.2]
      else some []
    let l3 : Option (List SolverInterface) :=
      if pyTruthy options.multiproc then
        match parseMultiproc (String.toList (options.multiproc.getD "")) with
        | none => none
        | some r => some [SolverInterface.multiproc r.1 r.2.1 r.2.2.1 r.2.2.2]
      else some []
    match l2, l3 with
    | some a, some b => some (l1 ++ a ++ b)
    | _, _ => none
  else some []

/-- `Application.__init__` lines 59-66: without MPI the process count is 1
(and the rank 0); with MPI they come from the communicator. -/
def initNumProcs (hasMPI : Bool) (commSize : Nat) : Nat :=
  if hasMPI then commSize else 1

/-- Lines 546-552 of `Application.setup`: the output file name passed to
`solver.set_output_fname` gets a rank suffix when running on more than one
process. -/
def setupOutputFname (hasMPI : Bool) (num_procs rank : Nat)
    (output : String) : String :=
  if hasMPI then
    if 1 < num_procs then output ++ "_" ++ Nat.repr rank else output
  else output

/-- Line 319-320 of `_setup_logging`: a `None` log-file option is replaced
by a name derived from `argv[0]`. -/
def chosenLogFilename (filename : Option String) (argv0base : String) :
    String :=
  match filename with
  | none => argv0base ++ ".log"
  | some f => f

/-- Lines 318-326 of `_setup_logging`: whether `logging.basicConfig` is
invoked with a log file — only when the chosen file name is non-empty and
the process count exceeds one. -/
def setupLoggingFileConfigured (filename : Option String)
    (argv0base : String) (num_procs : Nat) : Bool :=
  let fn := chosenLogFilename filename argv0base
  if 0 < fn.length then
    if 1 < num_procs then true else false
  else false

/-! ### Concrete test fixtures -/

/-- A dynamic test array. -/
def paFluid : ParticleArray :=
  { name := "fluid", is_static := false, numElems := 10 }

/-- A static test array. -/
def paWall : ParticleArray :=
  { name := "wall", is_static := true, numElems := 5 }

/-- A concrete solver state before bootstrap. -/
def solverEx : Solver :=
  { t := 0, dt := 1/100, count := 0, dim := 2, kernel_radius_scale := 2,
    pm := none, pm_static := none }

/-- A concrete particle factory: full arrays without the empty request,
same names and kinds with zero elements under `empty=True`. -/
def factoryEx : Bool → List ParticleArray := fun e =>
  if e then [{ paFluid with numElems := 0 }, { paWall with numElems := 0 }]
  else [paFluid, paWall]

/-- A concrete checkpoint loader. -/
def loadEx : String → CheckpointData := fun _ =>
  { arrays := [("fluid", paFluid), ("wall", paWall)],
    solver_t := 5, solver_dt := 3/2, solver_count := 7 }

/-- Fallback value used to extract the payload of a successful
`createParticles` run at concrete inputs. -/
def emptyCreateResult : CreateResult :=
  { particles := [], particles_static := [], particles_dynamic := [],
    pm := none, pm_static := none,
    solver := { t := 0, dt := 0, count := 0, dim := 0,
                kernel_radius_scale := 0, pm := none, pm_static := none },
    events := [] }

/-- Default options with a restart file set. -/
def optsRestart : Options :=
  { defaultOptions "sim" with restart_file := some "ckpt" }

/-- Rank-0 single-process bootstrap from the restart checkpoint. -/
def cpRestart : Except AppError CreateResult :=
  createParticles 0 1 true true optsRestart solverEx factoryEx loadEx

/-- The state produced by `cpRestart`. -/
def rRestart : CreateResult := cpRestart.toOption.getD emptyCreateResult

/-- Rank-1 single-process bootstrap with a restart file set. -/
def cpRank1 : Except AppError CreateResult :=
  createParticles 1 1 true true optsRestart solverEx factoryEx loadEx

/-- The state produced by `cpRank1`. -/
def rRank1 : CreateResult := cpRank1.toOption.getD emptyCreateResult

/-- Rank-0 single-process bootstrap from the factory, mixed arrays. -/
def cpMixed : Except AppError CreateResult :=
  createParticles 0 1 true true (defaultOptions "sim") solverEx factoryEx
    loadEx

/-- The state produced by `cpMixed`. -/
def rMixed : CreateResult := cpMixed.toOption.getD emptyCreateResult

/-- Rank-0 single-process bootstrap from a factory that returns no
entities. -/
def cpEmptyFactory : Except AppError CreateResult :=
  createParticles 0 1 true true (defaultOptions "sim") solverEx
    (fun _ => []) loadEx

/-- The state produced by `cpEmptyFactory`. -/
def rEmptyFactory : CreateResult :=
  cpEmptyFactory.toOption.getD emptyCreateResult

/-! ### Helper lemmas -/

lemma foldl_classifyStep (l : List ParticleArray) (a b : List ParticleArray) :
    l.foldl classifyStep (a, b) =
      (a ++ l.filter (fun pa => pa.is_static),
       b ++ l.filter (fun pa => !pa.is_static)) := by
  induction l generalizing a b with
  | nil => simp
  | cons x xs ih =>
      cases hx : x.is_static <;>
        simp [classifyStep, hx, ih, List.filter_cons]

lemma classify_eq_filter (l : List ParticleArray) :
    classify l =
      (l.filter (fun pa => pa.is_static),
       l.filter (fun pa => !pa.is_static)) := by
  simpa [classify] using foldl_classifyStep l [] []

lemma partitionStep_single (hz hm : Bool) (opts : Options) (solver : Solver)
    (pd ps : List ParticleArray) (ev : List Event) :
    partitionStep 1 hz hm opts solver pd ps ev =
      Except.ok (none, none,
        { solver with pm := none, pm_static := none }, ev) := by
  unfold partitionStep
  rw [if_neg (by omega)]

lemma partitionStep_solver_run_state (np : Nat) (hz hm : Bool)
    (opts : Options) (solver : Solver) (pd ps : List ParticleArray)
    (ev : List Event)
    (out : Option ParallelManager × Option ParallelManager × Solver ×
      List Event)
    (h : partitionStep np hz hm opts solver pd ps ev = Except.ok out) :
    out.2.2.1.t = solver.t ∧ out.2.2.1.dt = solver.dt ∧
      out.2.2.1.count = solver.count := by
  by_cases h1 : 1 < np
  · by_cases h2 : opts.with_zoltan
    · cases h3 : (hz && hm) with
      | false => simp [partitionStep, h1, h2, h3] at h
      | true =>
          by_cases h4 : 0 < ps.length
          · simp only [partitionStep, if_pos h1, if_pos h2, h3,
              Bool.not_true, Bool.false_eq_true, if_false, if_pos h4] at h
            cases h
            simp
          · simp only [partitionStep, if_pos h1, if_pos h2, h3,
              Bool.not_true, Bool.false_eq_true, if_false, if_neg h4] at h
            cases h
            simp
    · simp [partitionStep, h1, h2] at h
  · simp only [partitionStep, if_neg h1] at h
    cases h
    simp

lemma partitionStep_events_dataAcq (np : Nat) (hz hm : Bool)
    (opts : Options) (solver : Solver) (pd ps : List ParticleArray)
    (ev : List Event)
    (out : Option ParallelManager × Option ParallelManager × Solver ×
      List Event)
    (h : partitionStep np hz hm opts solver pd ps ev = Except.ok out) :
    out.2.2.2.filter Event.isDataAcquisition =
      ev.filter Event.isDataAcquisition := by
  by_cases h1 : 1 < np
  · by_cases h2 : opts.with_zoltan
    · cases h3 : (hz && hm) with
      | false => simp [partitionStep, h1, h2, h3] at h
      | true =>
          by_cases h4 : 0 < ps.length
          · simp only [partitionStep, if_pos h1, if_pos h2, h3,
              Bool.not_true, Bool.false_eq_true, if_false, if_pos h4] at h
            cases h
            simp [List.filter_append, Event.isDataAcquisition]
          · simp only [partitionStep, if_pos h1, if_pos h2, h3,
              Bool.not_true, Bool.false_eq_true, if_false, if_neg h4] at h
            cases h
            simp [List.filter_append, Event.isDataAcquisition]
    · simp [partitionStep, h1, h2] at h
  · simp only [partitionStep, if_neg h1] at h
    cases h
    simp

lemma bootstrapStep_no_partition_events (rank : Nat) (opts : Options)
    (solver : Solver) (factory : Bool → List ParticleArray)
    (load : String → CheckpointData) :
    ((bootstrapStep rank opts solver factory load).2.2).filter
        Event.isPartitionCall = [] := by
  unfold bootstrapStep
  split
  · split <;> simp [Event.isPartitionCall]
  · simp [Event.isPartitionCall]

lemma bootstrapStep_pos_rank (rank : Nat) (opts : Options) (solver : Solver)
    (factory : Bool → List ParticleArray) (load : String → CheckpointData)
    (h : 0 < rank) :
    bootstrapStep rank opts solver factory load =
      (factory true, solver, [Event.factoryCall true]) := by
  unfold bootstrapStep
  rw [if_neg (by omega)]

lemma bootstrapStep_restart (opts : Options) (solver : Solver)
    (factory : Bool → List ParticleArray) (load : String → CheckpointData)
    (p : String) (h : opts.restart_file = some p) :
    bootstrapStep 0 opts solver factory load =
      ((load p).arrays.map (fun a => a.2),
       { solver with t := (load p).solver_t,
                     dt := (load p).solver_dt * opts.rescale_dt,
                     count := (load p).solver_count },
       [Event.loadCheckpoint p]) := by
  unfold bootstrapStep
  rw [if_pos rfl, h]

lemma bootstrapStep_factory_full (opts : Options) (solver : Solver)
    (factory : Bool → List ParticleArray) (load : String → CheckpointData)
    (h : opts.restart_file = none) :
    bootstrapStep 0 opts solver factory load =
      (factory false, solver, [Event.factoryCall false]) := by
  unfold bootstrapStep
  rw [if_pos rfl, h]

lemma createParticles_ok (rank num_procs : Nat) (hz hm : Bool)
    (opts : Options) (solver : Solver) (factory : Bool → List ParticleArray)
    (load : String → CheckpointData) (r : CreateResult)
    (hok : createParticles rank num_procs hz hm opts solver factory load =
      Except.ok r) :
    ∃ pout,
      partitionStep num_procs hz hm opts
          (bootstrapStep rank opts solver factory load).2.1
          (classify (bootstrapStep rank opts solver factory load).1).2
          (classify (bootstrapStep rank opts solver factory load).1).1
          (bootstrapStep rank opts solver factory load).2.2 =
        Except.ok pout ∧
      r.particles = (bootstrapStep rank opts solver factory load).1 ∧
      r.particles_static = (classify r.particles).1 ∧
      r.particles_dynamic = (classify r.particles).2 ∧
      r.pm = pout.1 ∧ r.pm_static = pout.2.1 ∧
      r.solver = pout.2.2.1 ∧ r.events = pout.2.2.2 := by
  unfold createParticles at hok
  dsimp only [] at hok
  split at hok
  · simp at hok
  · rename_i pout heq
    refine ⟨pout, heq, ?_⟩
    cases hok
    simp

lemma pyFind_not_mem (c : Char) (l : List Char) (h : c ∉ l) :
    pyFind c l = none := by
  induction l with
  | nil => rfl
  | cons x xs ih =>
      have hx : ¬ x = c := by
        intro hx
        exact h (by rw [hx]; exact List.mem_cons_self c xs)
      have h2 : c ∉ xs := fun hm => h (List.mem_cons_of_mem x hm)
      simp [pyFind, hx, ih h2]

lemma pyFind_append_cons (c : Char) (l r : List Char) (h : c ∉ l) :
    pyFind c (l ++ c :: r) = some l.length := by
  induction l with
  | nil => simp [pyFind]
  | cons x xs ih =>
      have hx : ¬ x = c := by
        intro hx
        exact h (by rw [hx]; exact List.mem_cons_self c xs)
      have h2 : c ∉ xs := fun hm => h (List.mem_cons_of_mem x hm)
      simp [pyFind, hx, ih h2]

lemma splitAuth_no_at (s : List Char) (h : '@' ∉ s) :
    splitAuth s = (String.toList "pysph", s) := by
  unfold splitAuth
  rw [pyFind_not_mem _ _ h]

lemma splitAuth_at (ak r : List Char) (h : '@' ∉ ak) :
    splitAuth (ak ++ '@' :: r) = (ak, r) := by
  unfold splitAuth
  rw [pyFind_append_cons _ _ _ h]
  dsimp only
  rw [List.take_left, List.drop_append]
  rfl

lemma splitHost_no_colon (s : List Char) (h : ':' ∉ s) :
    splitHost s = (String.toList "0.0.0.0", s) := by
  unfold splitHost
  rw [pyFind_not_mem _ _ h]

lemma splitHost_colon (hst r : List Char) (h : ':' ∉ hst) :
    splitHost (hst ++ ':' :: r) = (hst, r) := by
  unfold splitHost
  rw [pyFind_append_cons _ _ _ h]
  dsimp only
  rw [List.take_left, List.drop_append]
  rfl

lemma pyInt_digits (l : List Char) (h1 : l ≠ [])
    (h2 : ∀ c ∈ l, c.isDigit = true) :
    pyInt l = some (Int.ofNat (digitsToNat l)) := by
  unfold pyInt
  rw [if_neg h1, if_pos (List.all_eq_true.mpr h2)]

lemma parsePort_digits (portd : List Char) (plus : Bool) (h1 : portd ≠ [])
    (h2 : ∀ c ∈ portd, c.isDigit = true) :
    parsePort (portd ++ (if plus then ['+'] else [])) =
      some (Int.ofNat (digitsToNat portd), plus) := by
  have hpy := pyInt_digits portd h1 h2
  cases plus with
  | true =>
      unfold parsePort
      rw [if_pos rfl, List.getLast?_concat]
      dsimp only
      rw [if_pos rfl, List.dropLast_concat, hpy]
  | false =>
      rw [if_neg Bool.false_ne_true, List.append_nil]
      unfold parsePort
      cases hc : portd.getLast? with
      | none => exact absurd (List.getLast?_eq_none_iff.mp hc) h1
      | some c =>
          have hmem : c ∈ portd := by
            obtain ⟨hne, he⟩ :=
              List.mem_getLast?_eq_getLast (l := portd) (x := c) hc
            rw [he]
            exact List.getLast_mem hne
          have hcd := h2 c hmem
          have hcne : ¬ c = '+' := by
            intro e
            rw [e] at hcd
            exact absurd hcd (by decide)
          dsimp only
          rw [if_neg hcne, hpy]

/-! ### Claim theorems -/

/-- Claim C2: parsing a pool-endpoint address of the form
`[authkey@][host:]port[+]` yields the text before the first `@` as authkey
(default `"pysph"`), the text before the first `:` of the remainder as host
(default `"0.0.0.0"`), the remaining digits as the integer port, and
port-search true exactly when the string ends in `+`. -/
theorem multiproc_address_parsing (ak hst portd : List Char)
    (hasAuth hasHost hasPlus : Bool)
    (h1 : '@' ∉ ak) (h2 : '@' ∉ hst) (h3 : ':' ∉ hst)
    (h4 : portd ≠ []) (h5 : ∀ c ∈ portd, c.isDigit = true) :
    parseMultiproc
        ((if hasAuth then ak ++ ['@'] else []) ++
         ((if hasHost then hst ++ [':'] else []) ++
          (portd ++ (if hasPlus then ['+'] else [])))) =
      some ((if hasAuth then ak else String.toList "pysph"),
            (if hasHost then hst else String.toList "0.0.0.0"),
            Int.ofNat (digitsToNat portd), hasPlus) := by
  have hdigNe : ∀ c ∈ portd, ¬ c = '@' ∧ ¬ c = ':' := by
    intro c hc
    have hd := h5 c hc
    constructor <;> (intro e; rw [e] at hd; exact absurd hd (by decide))
  have hplusAt : '@' ∉ (if hasPlus then ['+'] else ([] : List Char)) := by
    cases hasPlus <;> simp
  have hplusColon : ':' ∉ (if hasPlus then ['+'] else ([] : List Char)) := by
    cases hasPlus <;> simp
  have hportAt : '@' ∉ (portd ++ (if hasPlus then ['+'] else [])) := by
    intro hm
    rcases List.mem_append.mp hm with hm | hm
    · exact (hdigNe _ hm).1 rfl
    · exact hplusAt hm
  have hportColon : ':' ∉ (portd ++ (if hasPlus then ['+'] else [])) := by
    intro hm
    rcases List.mem_append.mp hm with hm | hm
    · exact (hdigNe _ hm).2 rfl
    · exact hplusColon hm
  have hrestAt :
      '@' ∉ ((if hasHost then hst ++ [':'] else []) ++
        (portd ++ (if hasPlus then ['+'] else []))) := by
    intro hm
    rcases List.mem_append.mp hm with hm | hm
    · cases hasHost with
      | false => simp at hm
      | true =>
          rw [if_pos rfl] at hm
          rcases List.mem_append.mp hm with hm | hm
          · exact h2 hm
          · exact absurd hm (by decide)
    · exact hportAt hm
  have hsplit1 :
      splitAuth
          ((if hasAuth then ak ++ ['@'] else []) ++
           ((if hasHost then hst ++ [':'] else []) ++
            (portd ++ (if hasPlus then ['+'] else [])))) =
        ((if hasAuth then ak else String.toList "pysph"),
         (if hasHost then hst ++ [':'] else []) ++
          (portd ++ (if hasPlus then ['+'] else []))) := by
    cases hasAuth with
    | false =>
        rw [if_neg Bool.false_ne_true, if_neg Bool.false_ne_true,
          List.nil_append]
        exact splitAuth_no_at _ hrestAt
    | true =>
        rw [if_pos rfl, if_pos rfl, List.append_assoc, List.singleton_append]
        exact splitAuth_at _ _ h1
  have hsplit2 :
      splitHost
          ((if hasHost then hst ++ [':'] else []) ++
           (portd ++ (if hasPlus then ['+'] else []))) =
        ((if hasHost then hst else String.toList "0.0.0.0"),
         portd ++ (if hasPlus then ['+'] else [])) := by
    cases hasHost with
    | false =>
        rw [if_neg Bool.false_ne_true, if_neg Bool.false_ne_true,
          List.nil_append]
        exact splitHost_no_colon _ hportColon
    | true =>
        rw [if_pos rfl, if_pos rfl, List.append_assoc, List.singleton_append]
        exact splitHost_colon _ _ h3
  unfold parseMultiproc
  dsimp only
  rw [hsplit1]
  dsimp only
  rw [hsplit2]
  dsimp only
  rw [parsePort_digits portd hasPlus h4 h5]

/-- Witness for C2: `"secret@host:9000+"` parses to
`("secret", "host", 9000, search)` with search on, and `"1234"` parses to
the defaults `("pysph", "0.0.0.0", 1234, no search)`. -/
theorem multiproc_address_parsing_witness :
    parseMultiproc (String.toList "secret@host:9000+") =
      some (String.toList "secret", String.toList "host",
        (9000 : Int), true) ∧
    parseMultiproc (String.toList "1234") =
      some (String.toList "pysph", String.toList "0.0.0.0",
        (1234 : Int), false) := by
  constructor
  · have h := multiproc_address_parsing (String.toList "secret")
      (String.toList "host") (String.toList "9000") true true true
      (by decide) (by decide) (by decide) (by decide) (by decide)
    have e : String.toList "secret@host:9000+" =
        ((if true then String.toList "secret" ++ ['@'] else []) ++
         ((if true then String.toList "host" ++ [':'] else []) ++
          (String.toList "9000" ++ (if true then ['+'] else [])))) := by
      decide
    rw [e, h]
    decide
  · have h := multiproc_address_parsing (String.toList "secret")
      (String.toList "host") (String.toList "1234") false false false
      (by decide) (by decide) (by decide) (by decide) (by decide)
    have e : String.toList "1234" =
        ((if false then String.toList "secret" ++ ['@'] else []) ++
         ((if false then String.toList "host" ++ [':'] else []) ++
          (String.toList "1234" ++ (if false then ['+'] else [])))) := by
      decide
    rw [e, h]
    decide

/-- Claim C1: on rank 0 with a restart path set, bootstrap assigns the
solver the checkpoint's `t` and `count` unchanged and the checkpoint's `dt`
multiplied by the rescale factor; with rescale factor 1 the restored
`(t, dt, count)` equal the saved ones exactly. -/
theorem restart_rescale_roundtrip (np : Nat) (hz hm : Bool) (opts : Options)
    (solver : Solver) (factory : Bool → List ParticleArray)
    (load : String → CheckpointData) (p : String) (r : CreateResult)
    (hrf : opts.restart_file = some p)
    (hok : createParticles 0 np hz hm opts solver factory load =
      Except.ok r) :
    r.solver.t = (load p).solver_t ∧
    r.solver.dt = (load p).solver_dt * opts.rescale_dt ∧
    r.solver.count = (load p).solver_count ∧
    (opts.rescale_dt = 1 →
      (r.solver.t, r.solver.dt, r.solver.count) =
        ((load p).solver_t, (load p).solver_dt,
         (load p).solver_count)) := by
  obtain ⟨pout, hps, _, _, _, _, _, hsol, _⟩ :=
    createParticles_ok _ _ _ _ _ _ _ _ _ hok
  rw [bootstrapStep_restart _ _ _ _ _ hrf] at hps
  obtain ⟨ht, hdt, hc⟩ :=
    partitionStep_solver_run_state _ _ _ _ _ _ _ _ _ hps
  rw [hsol]
  have ht' : pout.2.2.1.t = (load p).solver_t := ht
  have hdt' : pout.2.2.1.dt = (load p).solver_dt * opts.rescale_dt := hdt
  have hc' : pout.2.2.1.count = (load p).solver_count := hc
  refine ⟨ht', hdt', hc', fun h1 => ?_⟩
  rw [ht', hdt', hc', h1, mul_one]

/-- Witness for C1: a save-then-restore round trip at rescale factor 1
reproduces the checkpoint's `t = 5`, `dt = 3/2`, `count = 7` exactly. -/
theorem restart_rescale_roundtrip_witness :
    optsRestart.restart_file = some "ckpt" ∧
    rRestart.solver.t = (loadEx "ckpt").solver_t ∧
    rRestart.solver.dt = (loadEx "ckpt").solver_dt ∧
    rRestart.solver.count = (loadEx "ckpt").solver_count := by
  have h := restart_rescale_roundtrip 1 true true optsRestart solverEx
    factoryEx loadEx "ckpt" rRestart rfl (by rfl)
  have h4 := h.2.2.2 rfl
  rw [Prod.mk.injEq, Prod.mk.injEq] at h4
  exact ⟨rfl, h4.1, h4.2.1, h4.2.2⟩

/-- Claim C3 counterexample: on rank 0 with no restart path, a factory
returning an empty set of entities makes bootstrap succeed with zero
particles — no error of any kind is raised, contrary to the claim that a
`FactoryError` is raised and zero entities never proceed silently. -/
theorem factory_empty_silently_ok :
    Except.map (fun r : CreateResult => r.particles)
      (createParticles 0 1 true true (defaultOptions "sim") solverEx
        (fun _ => []) loadEx) = Except.ok [] := by
  rfl

/-- Claim C3 (amended): on rank 0 with no restart path, bootstrap assigns
the factory's result unchanged — there is no emptiness check and no
`FactoryError`, so an empty factory result proceeds with zero entities. -/
theorem factory_result_assigned_unchecked (np : Nat) (hz hm : Bool)
    (opts : Options) (solver : Solver)
    (factory : Bool → List ParticleArray)
    (load : String → CheckpointData) (r : CreateResult)
    (hrf : opts.restart_file = none)
    (hok : createParticles 0 np hz hm opts solver factory load =
      Except.ok r) :
    r.particles = factory false := by
  obtain ⟨pout, hps, hp, _⟩ := createParticles_ok _ _ _ _ _ _ _ _ _ hok
  rw [bootstrapStep_factory_full _ _ _ _ hrf] at hp
  exact hp

/-- Witness for C3 (amended): with an empty-returning factory, the particle
list is the factory's (empty) full result. -/
theorem factory_result_assigned_unchecked_witness :
    (defaultOptions "sim").restart_file = none ∧
    rEmptyFactory.particles = (fun _ : Bool => ([] : List ParticleArray)) false := by
  exact ⟨rfl, factory_result_assigned_unchecked 1 true true
    (defaultOptions "sim") solverEx (fun _ => []) loadEx rEmptyFactory rfl
    (by rfl)⟩

/-- Claim C4: the code is expected to mark the static partition group
initialized after its initial balance, but line 451 re-assigns
`pm.initial_update` (the dynamic group's flag, already cleared at line 433)
instead of `pm_static.initial_update`; at a concrete two-process run with
one static array, the static group's initial-update flag remains set while
the dynamic group's flag is cleared. -/
theorem static_group_flag_not_cleared :
    (Option.bind
        (createParticles 0 2 true true (defaultOptions "sim") solverEx
            factoryEx loadEx).toOption
        (fun r => r.pm_static)).map (fun m => m.initial_update) =
      some true ∧
    (Option.bind
        (createParticles 0 2 true true (defaultOptions "sim") solverEx
            factoryEx loadEx).toOption
        (fun r => r.pm)).map (fun m => m.initial_update) = some false := by
  constructor <;> decide

/-- Claim C5: with a single process, `_create_particles` performs no
partitioning-service calls and both parallel-manager handles — the fields
returned and the ones set on the solver — are `none`. -/
theorem single_proc_no_partition (rank : Nat) (hz hm : Bool)
    (opts : Options) (solver : Solver)
    (factory : Bool → List ParticleArray)
    (load : String → CheckpointData) :
    Except.map
        (fun r : CreateResult =>
          (r.pm, r.pm_static, r.solver.pm, r.solver.pm_static,
           r.events.filter Event.isPartitionCall))
        (createParticles rank 1 hz hm opts solver factory load) =
      Except.ok (none, none, none, none, []) := by
  unfold createParticles
  dsimp only []
  rw [partitionStep_single]
  dsimp only [Except.map]
  simp [bootstrapStep_no_partition_events]

/-- Claim C6: every rank greater than 0 bootstraps by calling the factory
with the empty-placeholder request and acquires data in no other way — in
particular it never reads the restart checkpoint, even when a restart path
is set. -/
theorem nonzero_rank_uses_empty_factory (rank np : Nat) (hz hm : Bool)
    (opts : Options) (solver : Solver)
    (factory : Bool → List ParticleArray)
    (load : String → CheckpointData) (r : CreateResult) (hr : 0 < rank)
    (hok : createParticles rank np hz hm opts solver factory load =
      Except.ok r) :
    r.particles = factory true ∧
    r.events.filter Event.isDataAcquisition = [Event.factoryCall true] := by
  obtain ⟨pout, hps, hp, _, _, _, _, _, hev⟩ :=
    createParticles_ok _ _ _ _ _ _ _ _ _ hok
  rw [bootstrapStep_pos_rank _ _ _ _ _ hr] at hps hp
  refine ⟨hp, ?_⟩
  rw [hev, partitionStep_events_dataAcq _ _ _ _ _ _ _ _ _ hps]
  simp [Event.isDataAcquisition]

/-- Witness for C6: rank 1 with a restart path set still calls the factory
with `empty=true` and never loads the checkpoint. -/
theorem nonzero_rank_uses_empty_factory_witness :
    0 < 1 ∧
    rRank1.particles = factoryEx true ∧
    rRank1.events.filter Event.isDataAcquisition =
      [Event.factoryCall true] := by
  have h := nonzero_rank_uses_empty_factory 1 1 true true optsRestart
    solverEx factoryEx loadEx rRank1 (by decide) (by rfl)
  exact ⟨by decide, h.1, h.2⟩

/-- Claim C7: the classification step splits the bootstrapped entities into
the static and the dynamic subset by the `is_static` flag: each subset is
the corresponding filter of the particle list (hence order-preserving and a
sublist), and together the two subsets are a permutation of the whole list,
so every entity lands in exactly one subset. -/
theorem classification_by_static_flag (rank np : Nat) (hz hm : Bool)
    (opts : Options) (solver : Solver)
    (factory : Bool → List ParticleArray)
    (load : String → CheckpointData) (r : CreateResult)
    (hok : createParticles rank np hz hm opts solver factory load =
      Except.ok r) :
    r.particles_static = r.particles.filter (fun pa => pa.is_static) ∧
    r.particles_dynamic = r.particles.filter (fun pa => !pa.is_static) ∧
    List.Sublist r.particles_static r.particles ∧
    List.Sublist r.particles_dynamic r.particles ∧
    List.Perm (r.particles_static ++ r.particles_dynamic) r.particles := by
  obtain ⟨pout, hps, hp, hs, hd, _⟩ :=
    createParticles_ok _ _ _ _ _ _ _ _ _ hok
  rw [classify_eq_filter] at hs hd
  refine ⟨hs, hd, ?_, ?_, ?_⟩
  · rw [hs]; exact List.filter_sublist _
  · rw [hd]; exact List.filter_sublist _
  · rw [hs, hd]; exact List.filter_append_perm _ _

/-- Witness for C7: classification of a mixed two-array bootstrap. -/
theorem classification_by_static_flag_witness :
    rMixed.particles_static =
      rMixed.particles.filter (fun pa => pa.is_static) ∧
    rMixed.particles_dynamic =
      rMixed.particles.filter (fun pa => !pa.is_static) ∧
    List.Sublist rMixed.particles_static rMixed.particles ∧
    List.Sublist rMixed.particles_dynamic rMixed.particles ∧
    List.Perm (rMixed.particles_static ++ rMixed.particles_dynamic)
      rMixed.particles := by
  exact classification_by_static_flag 0 1 true true (defaultOptions "sim")
    solverEx factoryEx loadEx rMixed (by rfl)

/-- Claim C8: the output file name set on the solver carries a `_<rank>`
suffix exactly when the process count exceeds one, and is the configured
base name unchanged when the process count is one (the `Has_MPI` guard is
redundant because without MPI the constructor fixes the count at 1). -/
theorem output_fname_rank_suffix (hasMPI : Bool) (commSize rank : Nat)
    (output : String) :
    setupOutputFname hasMPI (initNumProcs hasMPI commSize) rank output =
      (if 1 < initNumProcs hasMPI commSize then
        output ++ "_" ++ Nat.repr rank
      else output) := by
  cases hasMPI <;> simp [setupOutputFname, initNumProcs]

/-- Claim C10: `_setup_logging` configures a log file only when the chosen
file name is non-empty and the process count exceeds one; with a single
process no log file is ever configured, whatever the name. -/
theorem single_proc_no_logfile (filename : Option String)
    (argv0base : String) (np : Nat) :
    setupLoggingFileConfigured filename argv0base 1 = false ∧
    (setupLoggingFileConfigured filename argv0base np = true ↔
      0 < (chosenLogFilename filename argv0base).length ∧ 1 < np) := by
  constructor
  · by_cases h : 0 < (chosenLogFilename filename argv0base).length <;>
      simp [setupLoggingFileConfigured, h]
  · by_cases h : 0 < (chosenLogFilename filename argv0base).length <;>
      by_cases h2 : 1 < np <;>
      simp [setupLoggingFileConfigured, h, h2]

/-- Claim C9: with no transport options given (the parsed defaults), rank 0
attaches only the multiprocessing (pool) interface, at authkey `pysph`,
host `0.0.0.0`, port 8800, with port-search enabled; the console and
XML-RPC interfaces are not attached; the explicit disable option
(`--no-multiproc`, which stores `None`) leaves the pool endpoint off. -/
theorem default_interfaces_pool_only :
    addInterfaces 0 (defaultOptions "sim") =
      some [SolverInterface.multiproc (String.toList "pysph")
        (String.toList "0.0.0.0") 8800 true] ∧
    addInterfaces 0 { defaultOptions "sim" with multiproc := none } =
      some [] := by
  constructor <;> decide

end PySPH
